import Mathlib

/-!
Shallow embedding of `root/app/ddns.py` (Cloudflare dynamic-DNS client).

The effectful boundaries of the script — the filesystem, the subprocess
calls to `dig`, the HTTP IP-echo services and the Cloudflare API — are
modelled as explicit environment values handed to the embedded functions:
each environment field records the observable result of one collaborator
call (`none` standing for an exception or an API failure, which the code
collapses to "no data").  The pure decision logic (truthiness checks,
fallback ordering, comparison and branching) is transcribed directly from
the source.
-/

/-- Python `str.isspace` characters relevant to `str.strip()`. -/
def pyIsSpace (c : Char) : Bool :=
  c == ' ' || c == '\t' || c == '\n' || c == '\r' || c == Char.ofNat 11 || c == Char.ofNat 12

/-- Python `s.strip()`: drop leading and trailing whitespace. -/
def pyStrip (s : String) : String :=
  ⟨((s.data.dropWhile pyIsSpace).reverse.dropWhile pyIsSpace).reverse⟩

/-- `ddns.py` lines 26-30.  `load_from_file(file_path)` returns the stripped
content of the file when the path is truthy and the file exists, else `None`.
The filesystem is modelled as `fs : String → Option String` (path to content,
`none` when `os.path.isfile` is false). -/
def load_from_file (file_path : Option String) (fs : String → Option String) : Option String :=
  match file_path with
  | none => none
  | some p =>
    if p = "" then none
    else
      match fs p with
      | some content => some (pyStrip content)
      | none => none

/-- Python `x or y` on optional strings: `y` when `x` is `None` or empty. -/
def orPy (x y : Option String) : Option String :=
  match x with
  | some s => if s = "" then y else some s
  | none => y

/-- `ddns.py` lines 33-35.  Each of `API_KEY`, `ZONE`, `SUBDOMAIN` is computed
as `load_from_file(os.getenv(X_FILE)) or os.getenv(X)`. -/
def resolveSetting (fileVar : Option String) (fs : String → Option String)
    (envVar : Option String) : Option String :=
  orPy (load_from_file fileVar fs) envVar

/-- Python truthiness of an optional string: falsy iff `None` or `""`. -/
def optFalsy : Option String → Bool
  | none => true
  | some s => s == ""

/-- A JSON scalar as produced by the request payload dicts in `ddns.py`. -/
inductive PyVal where
  | str (s : String)
  | int (n : Int)
  | bool (b : Bool)
deriving DecidableEq

/-- Request payload of `create_dns_record` (`ddns.py` lines 92-98). -/
def create_dns_record_data (name content rrtype : String) (proxied : Bool) :
    List (String × PyVal) :=
  [("type", .str rrtype), ("name", .str name), ("content", .str content),
   ("proxied", .bool proxied), ("ttl", .int 1)]

/-- Request payload of `update_dns_record` (`ddns.py` line 107). -/
def update_dns_record_data (name content rrtype : String) (proxied : Bool) :
    List (String × PyVal) :=
  [("type", .str rrtype), ("name", .str name), ("content", .str content),
   ("proxied", .bool proxied)]

/-- Field lookup in a payload dict. -/
def lookupField (k : String) (l : List (String × PyVal)) : Option PyVal :=
  (l.find? (fun p => p.1 == k)).map Prod.snd

/-- The persisted config written by `setup` (`ddns.py` lines 293-297). -/
structure Config where
  CF_ZONE_ID : String
  CF_RECORD_ID : String
  CF_RECORD_NAME : String
deriving DecidableEq

/-- The JSON document `json.dump(config, f)` serialises (`ddns.py` lines
293-300): an object with exactly these three fields in this order. -/
def configJson (c : Config) : List (String × String) :=
  [("CF_ZONE_ID", c.CF_ZONE_ID), ("CF_RECORD_ID", c.CF_RECORD_ID),
   ("CF_RECORD_NAME", c.CF_RECORD_NAME)]

/-- `ddns.py` lines 255-257: `f"{SUBDOMAIN}.{ZONE}" if SUBDOMAIN else ZONE`. -/
def get_dns_name (subdomain : Option String) (zone : String) : String :=
  match subdomain with
  | some s => if s = "" then zone else s ++ "." ++ zone
  | none => zone

/-! ## Public-IP detection chain (`get_public_ip`, `ddns.py` lines 125-225)

Each detection step is an effectful probe (a `dig` subprocess or an HTTP
request plus its extraction rule).  The environment records, per step, the
stripped textual value the probe produced (`some s`, possibly empty) or
`none` when the probe raised / the JSON field was missing.  The chain logic
— acceptance tests and the strict first-success ordering — is the code's. -/

/-- Raw (post-strip) results of the detection probes, in source order.
Fields 1-8 are the IPv4 chain of `ddns.py` lines 127-177; fields 9-15 the
IPv6 chain of lines 181-222. -/
structure DetectEnv where
  cfDnsA : Option String
  openDns : Option String
  ipinfo : Option String
  ipify : Option String
  icanhazipA : Option String
  checkipA : Option String
  httpbinA : Option String
  myipA : Option String
  cfDnsAAAA : Option String
  ifconfigCo : Option String
  ipify6 : Option String
  icanhazip6 : Option String
  checkip6 : Option String
  httpbin6 : Option String
  myip6 : Option String
deriving DecidableEq

/-- Acceptance test of the IPv4 chain, per step index: step 0 (Cloudflare DNS)
requires a non-empty value of length ≤ 15 (`ddns.py` line 137); every later
step only requires non-emptiness (`if ip:`). -/
def acceptA (i : Nat) (s : String) : Bool :=
  match i with
  | 0 => !(s == "") && decide (s.length ≤ 15)
  | _ + 1 => !(s == "")

/-- Acceptance test of the IPv6 chain: every step requires non-emptiness. -/
def acceptAny (_ : Nat) (s : String) : Bool :=
  !(s == "")

/-- The fallback loop: try steps in order, return the first accepted value.
`i` is the index of the head step. -/
def runChain (accept : Nat → String → Bool) : Nat → List (Option String) → Option String
  | _, [] => none
  | i, none :: rest => runChain accept (i + 1) rest
  | i, some s :: rest => if accept i s then some s else runChain accept (i + 1) rest

/-- Number of steps the chain actually attempts before stopping. -/
def attemptCount (accept : Nat → String → Bool) : Nat → List (Option String) → Nat
  | _, [] => 0
  | i, none :: rest => attemptCount accept (i + 1) rest + 1
  | i, some s :: rest => if accept i s then 1 else attemptCount accept (i + 1) rest + 1

/-- Outcome of a single step: its value when the probe ran and the step's
acceptance test passed, `none` otherwise (error, empty, or rejected). -/
def stepOutcome (accept : Nat → String → Bool) (i : Nat) : Option String → Option String
  | some s => if accept i s then some s else none
  | none => none

/-- Per-step outcomes of a chain, in order. -/
def outcomes (accept : Nat → String → Bool) : Nat → List (Option String) → List (Option String)
  | _, [] => []
  | i, o :: rest => stepOutcome accept i o :: outcomes accept (i + 1) rest

/-- First `some` of a list of optional values. -/
def firstSome : List (Option String) → Option String
  | [] => none
  | none :: rest => firstSome rest
  | some s :: _ => some s

/-- The IPv4 probes in source order (`ddns.py` lines 127-176). -/
def aSteps (env : DetectEnv) : List (Option String) :=
  [env.cfDnsA, env.openDns, env.ipinfo, env.ipify, env.icanhazipA,
   env.checkipA, env.httpbinA, env.myipA]

/-- The IPv6 probes in source order (`ddns.py` lines 181-221). -/
def aaaaSteps (env : DetectEnv) : List (Option String) :=
  [env.cfDnsAAAA, env.ifconfigCo, env.ipify6, env.icanhazip6,
   env.checkip6, env.httpbin6, env.myip6]

/-- `ddns.py` lines 125-225: `get_public_ip(rrtype)` runs the IPv4 chain for
`"A"`, the IPv6 chain for `"AAAA"`, and returns `None` otherwise. -/
def get_public_ip (rrtype : String) (env : DetectEnv) : Option String :=
  if rrtype = "A" then runChain acceptA 0 (aSteps env)
  else if rrtype = "AAAA" then runChain acceptAny 0 (aaaaSteps env)
  else none

/-- Step list of the chain selected by `rrtype`. -/
def chainSteps (rrtype : String) (env : DetectEnv) : List (Option String) :=
  if rrtype = "A" then aSteps env
  else if rrtype = "AAAA" then aaaaSteps env
  else []

/-- Acceptance tests of the chain selected by `rrtype`. -/
def chainAccept (rrtype : String) : Nat → String → Bool :=
  if rrtype = "A" then acceptA else acceptAny

/-- Per-step outcomes of the chain selected by `rrtype`. -/
def chainOutcomes (rrtype : String) (env : DetectEnv) : List (Option String) :=
  outcomes (chainAccept rrtype) 0 (chainSteps rrtype env)

/-- Number of steps attempted by `get_public_ip` for `rrtype`. -/
def chainAttempts (rrtype : String) (env : DetectEnv) : Nat :=
  attemptCount (chainAccept rrtype) 0 (chainSteps rrtype env)

/-! ## `update()` (`ddns.py` lines 303-329) -/

/-- A Cloudflare API call observable during `update`: the GET that reads the
record content, or the PATCH that rewrites it. -/
inductive ProviderCall where
  | readRecord (zone_id record_id : String)
  | patchRecord (zone_id record_id name content : String)
deriving DecidableEq

/-- A call is a write exactly when it is the PATCH. -/
def isWrite : ProviderCall → Bool
  | .readRecord _ _ => false
  | .patchRecord _ _ _ _ => true

/-- How an `update()` invocation ended. -/
inductive UpdateOutcome where
  | noConfig
  | noCurrentIp
  | updated (ok : Bool)
  | noUpdateNeeded
deriving DecidableEq

/-- Collaborator results visible to one `update()` invocation: the parsed
config file (`none` when `/config/cloudflare.conf` is absent), the result of
`get_dns_record_ip` (`none` on API failure or missing content), the result of
`get_current_ip`, and the success flag `update_dns_record` would return. -/
structure UpdateEnv where
  configFile : Option Config
  dnsRecordIp : Option String
  currentIp : Option String
  patchSuccess : Bool
deriving DecidableEq

/-- Outcome plus the provider calls issued, in order. -/
structure UpdateResult where
  outcome : UpdateOutcome
  calls : List ProviderCall
deriving DecidableEq

/-- `ddns.py` lines 303-329, transcribed: missing config returns early with
no call; otherwise the record content is read, then the current IP checked
for truthiness, then `current_ip != dns_ip` decides whether the PATCH is
issued. -/
def update (env : UpdateEnv) : UpdateResult :=
  match env.configFile with
  | none => ⟨.noConfig, []⟩
  | some cfg =>
    let readCall := ProviderCall.readRecord cfg.CF_ZONE_ID cfg.CF_RECORD_ID
    let dns_ip := env.dnsRecordIp
    match env.currentIp with
    | none => ⟨.noCurrentIp, [readCall]⟩
    | some current_ip =>
      if current_ip = "" then ⟨.noCurrentIp, [readCall]⟩
      else if dns_ip ≠ some current_ip then
        ⟨.updated env.patchSuccess,
         [readCall,
          ProviderCall.patchRecord cfg.CF_ZONE_ID cfg.CF_RECORD_ID cfg.CF_RECORD_NAME current_ip]⟩
      else ⟨.noUpdateNeeded, [readCall]⟩

/-! ## `setup()` (`ddns.py` lines 260-300) -/

/-- Module-level configuration and collaborator results visible to one
`setup()` invocation: the resolved `API_KEY`/`ZONE`/`SUBDOMAIN` values, the
result of `verify_token`, of `get_zone_id`, of `get_current_ip`, of
`get_dns_record_id`, and the id `create_dns_record` would return. -/
structure SetupEnv where
  API_KEY : Option String
  ZONE : Option String
  SUBDOMAIN : Option String
  verifyOk : Bool
  zoneId : Option String
  currentIp : Option String
  existingRecordId : Option String
  createdRecordId : Option String
deriving DecidableEq

/-- Result of `setup`: the process exit code (1 on `sys.exit(1)`, 0 on normal
return), the config document written (if reached), and how many
`create_dns_record` calls were issued. -/
structure SetupResult where
  exitCode : Nat
  written : Option Config
  createCalls : Nat
deriving DecidableEq

/-- `ddns.py` lines 260-300, transcribed guard by guard. -/
def setup (env : SetupEnv) : SetupResult :=
  if optFalsy env.API_KEY || optFalsy env.ZONE then ⟨1, none, 0⟩
  else if !env.verifyOk then ⟨1, none, 0⟩
  else if optFalsy env.zoneId then ⟨1, none, 0⟩
  else if optFalsy env.currentIp then ⟨1, none, 0⟩
  else
    let dns_name := get_dns_name env.SUBDOMAIN (env.ZONE.getD "")
    if optFalsy env.existingRecordId then
      if optFalsy env.createdRecordId then ⟨1, none, 1⟩
      else ⟨0, some ⟨env.zoneId.getD "", env.createdRecordId.getD "", dns_name⟩, 1⟩
    else ⟨0, some ⟨env.zoneId.getD "", env.existingRecordId.getD "", dns_name⟩, 0⟩

/-- Disjunction of the five fatal conditions of `setup` (§7 of the spec):
missing credentials/zone, invalid credentials, zone not found, address
resolution failure, record creation failure. -/
def fatalCond (env : SetupEnv) : Bool :=
  optFalsy env.API_KEY || optFalsy env.ZONE || !env.verifyOk ||
    optFalsy env.zoneId || optFalsy env.currentIp ||
    (optFalsy env.existingRecordId && optFalsy env.createdRecordId)

/-- Contents of the config store after a `setup` run, given its prior
contents: overwritten when `setup` wrote, untouched otherwise. -/
def storeAfter (r : SetupResult) (prior : Option Config) : Option Config :=
  match r.written with
  | some c => some c
  | none => prior

/-- Matching records at the provider after a `setup` run, given the count
before: each `create_dns_record` call adds one record. -/
def recordsAfter (before : Nat) (r : SetupResult) : Nat :=
  before + r.createCalls

/-! ## Concrete environments used by witnesses and counterexamples -/

/-- Witness environment for C1: config present, record reads `1.2.3.4`,
resolver returns `5.6.7.8`. -/
def envC1W : UpdateEnv :=
  ⟨some ⟨"z1", "r1", "host.example.com"⟩, some "1.2.3.4", some "5.6.7.8", true⟩

/-- Witness environment for C2: IPv4 step 1 errors, step 2 succeeds. -/
def envC2W : DetectEnv :=
  ⟨none, some "1.2.3.4", none, none, none, none, none, none,
   none, none, none, none, none, none, none⟩

/-- Witness environment for C3: no config file present. -/
def envC3W : UpdateEnv :=
  ⟨none, none, some "1.2.3.4", true⟩

/-- Counterexample environment for C3: config present, the provider read of
the stored address failed (`none`), resolution succeeded. -/
def envC3X : UpdateEnv :=
  ⟨some ⟨"zone1", "rec1", "host.example.com"⟩, none, some "1.2.3.4", true⟩

/-- Witness environment for C4: every stage succeeds and a matching record
already exists at the provider. -/
def envC4W : SetupEnv :=
  ⟨some "key", some "example.com", some "home", true, some "z1",
   some "1.2.3.4", some "r1", none⟩

/-- Environment for C6: a successful `setup` run adopting record `r1`. -/
def envC6W : SetupEnv :=
  ⟨some "key", some "example.com", some "home", true, some "z1",
   some "1.2.3.4", some "r1", none⟩

/-- Witness environment for C7: the IPv4 DNS step returns `8.8.8.8`. -/
def envC7W : DetectEnv :=
  ⟨some "8.8.8.8", none, none, none, none, none, none, none,
   none, none, none, none, none, none, none⟩

/-- Witness filesystem for C8: one secret file with padded content. -/
def fsC8W : String → Option String :=
  fun q => if q = "/run/secrets/key" then some " key123 " else none

/-- Counterexample filesystem for C8: one secret file whose content strips
to the empty string. -/
def fsC8X : String → Option String :=
  fun q => if q = "/run/secrets/key2" then some "   " else none

/-- Witness environment for C9: `API_KEY` missing, everything else fine. -/
def envC9W : SetupEnv :=
  ⟨none, some "example.com", none, true, some "z1", some "1.2.3.4", none, some "r9"⟩

/-! ## Helper lemmas -/

theorem runChain_eq_firstSome (accept : Nat → String → Bool) :
    ∀ (l : List (Option String)) (i : Nat),
      runChain accept i l = firstSome (outcomes accept i l) := by
  intro l
  induction l with
  | nil => intro i; rfl
  | cons o rest ih =>
    intro i
    cases o with
    | none => simp [runChain, outcomes, stepOutcome, firstSome, ih]
    | some s =>
      by_cases h : accept i s
      · simp [runChain, outcomes, stepOutcome, firstSome, h]
      · simp [runChain, outcomes, stepOutcome, firstSome, h, ih]

theorem firstSome_eq_none_iff :
    ∀ l : List (Option String), firstSome l = none ↔ ∀ o ∈ l, o = none := by
  intro l
  induction l with
  | nil => simp [firstSome]
  | cons o rest ih =>
    cases o with
    | none => simp [firstSome, ih]
    | some s => simp [firstSome]

theorem firstSome_at :
    ∀ (l : List (Option String)) (j : Nat) (v : String),
      l.getD j none = some v → (∀ k, k < j → l.getD k none = none) →
      firstSome l = some v := by
  intro l
  induction l with
  | nil => intro j v h1 _; simp at h1
  | cons o rest ih =>
    intro j v h1 h2
    cases j with
    | zero =>
      simp at h1
      simp [h1, firstSome]
    | succ j =>
      have h0 : o = none := by
        have := h2 0 (Nat.succ_pos j)
        simpa using this
      subst h0
      simp only [firstSome]
      exact ih j v (by simpa using h1) (fun k hk => by simpa using h2 (k + 1) (Nat.succ_lt_succ hk))

theorem attemptCount_at (accept : Nat → String → Bool) :
    ∀ (l : List (Option String)) (i j : Nat) (v : String),
      (outcomes accept i l).getD j none = some v →
      (∀ k, k < j → (outcomes accept i l).getD k none = none) →
      attemptCount accept i l = j + 1 := by
  intro l
  induction l with
  | nil => intro i j v h1 _; simp [outcomes] at h1
  | cons o rest ih =>
    intro i j v h1 h2
    cases j with
    | zero =>
      simp only [outcomes, List.getD_cons_zero] at h1
      cases o with
      | none => simp [stepOutcome] at h1
      | some s =>
        by_cases h : accept i s
        · simp [attemptCount, h]
        · simp [stepOutcome, h] at h1
    | succ j =>
      have h0 : stepOutcome accept i o = none := by
        have := h2 0 (Nat.succ_pos j)
        simpa [outcomes] using this
      have hrec : attemptCount accept (i + 1) rest = j + 1 := by
        refine ih (i + 1) j v ?_ ?_
        · simpa [outcomes] using h1
        · intro k hk
          simpa [outcomes] using h2 (k + 1) (Nat.succ_lt_succ hk)
      cases o with
      | none => simp [attemptCount, hrec]
      | some s =>
        have h : accept i s = false := by
          by_contra hc
          simp [stepOutcome, eq_true_of_ne_false hc] at h0
        simp [attemptCount, h, hrec]

theorem attemptCount_all_none (accept : Nat → String → Bool) :
    ∀ (l : List (Option String)) (i : Nat),
      (∀ o ∈ outcomes accept i l, o = none) →
      attemptCount accept i l = l.length := by
  intro l
  induction l with
  | nil => intro i _; rfl
  | cons o rest ih =>
    intro i hall
    have h0 : stepOutcome accept i o = none := hall _ (by simp [outcomes])
    have hrec : attemptCount accept (i + 1) rest = rest.length :=
      ih (i + 1) (fun o ho => hall o (by simp [outcomes]; exact Or.inr ho))
    cases o with
    | none => simp [attemptCount, hrec]
    | some s =>
      have h : accept i s = false := by
        by_contra hc
        simp [stepOutcome, eq_true_of_ne_false hc] at h0
      simp [attemptCount, h, hrec]

theorem optFalsy_false_iff (o : Option String) :
    optFalsy o = false ↔ o = some (o.getD "") ∧ o.getD "" ≠ "" := by
  cases o <;> simp [optFalsy]

theorem setup_spec (env : SetupEnv) :
    ((setup env).exitCode = if fatalCond env then 1 else 0) ∧
    ((setup env).written = none ↔ fatalCond env = true) := by
  cases hA : optFalsy env.API_KEY <;> cases hZ : optFalsy env.ZONE <;>
    cases hV : env.verifyOk <;> cases hz : optFalsy env.zoneId <;>
    cases hip : optFalsy env.currentIp <;> cases hr : optFalsy env.existingRecordId <;>
    cases hc : optFalsy env.createdRecordId <;>
    simp [setup, fatalCond, hA, hZ, hV, hz, hip, hr, hc]

theorem setup_written_eq (env : SetupEnv) (c : Config) (h : (setup env).written = some c) :
    optFalsy env.zoneId = false ∧ c.CF_ZONE_ID = env.zoneId.getD "" ∧
    c.CF_RECORD_NAME = get_dns_name env.SUBDOMAIN (env.ZONE.getD "") ∧
    ((optFalsy env.existingRecordId = false ∧ c.CF_RECORD_ID = env.existingRecordId.getD "") ∨
     (optFalsy env.existingRecordId = true ∧ optFalsy env.createdRecordId = false ∧
      c.CF_RECORD_ID = env.createdRecordId.getD "")) := by
  cases hA : optFalsy env.API_KEY <;> cases hZ : optFalsy env.ZONE <;>
    cases hV : env.verifyOk <;> cases hz : optFalsy env.zoneId <;>
    cases hip : optFalsy env.currentIp <;> cases hr : optFalsy env.existingRecordId <;>
    cases hc : optFalsy env.createdRecordId <;>
    simp [setup, hA, hZ, hV, hz, hip, hr, hc] at h <;>
    simp [hr, hc, ← h]

/-! ## Claim theorems -/

/-- C1: when the config file is present and address resolution succeeds,
`update()` issues the PATCH exactly when the resolved address differs from
the address read from the provider for the stored record id, and issues zero
provider write calls when the two are equal. -/
theorem update_patch_iff (env : UpdateEnv) (cfg : Config) (ip : String)
    (h1 : env.configFile = some cfg) (h2 : env.currentIp = some ip) (h3 : ip ≠ "") :
    ((env.dnsRecordIp ≠ some ip) ↔ (update env).calls.countP isWrite = 1) ∧
    (env.dnsRecordIp ≠ some ip →
      (update env).calls.filter isWrite =
        [ProviderCall.patchRecord cfg.CF_ZONE_ID cfg.CF_RECORD_ID cfg.CF_RECORD_NAME ip]) ∧
    (env.dnsRecordIp = some ip → (update env).calls.filter isWrite = []) := by
  by_cases hd : env.dnsRecordIp = some ip
  · simp [update, h1, h2, h3, hd, isWrite]
  · simp [update, h1, h2, h3, hd, isWrite]

/-- C1 witness: concrete run where the record holds `1.2.3.4` and the
resolver returns `5.6.7.8`. -/
theorem update_patch_iff_witness :
    ((envC1W.dnsRecordIp ≠ some "5.6.7.8") ↔ (update envC1W).calls.countP isWrite = 1) ∧
    (envC1W.dnsRecordIp ≠ some "5.6.7.8" →
      (update envC1W).calls.filter isWrite =
        [ProviderCall.patchRecord "z1" "r1" "host.example.com" "5.6.7.8"]) ∧
    (envC1W.dnsRecordIp = some "5.6.7.8" → (update envC1W).calls.filter isWrite = []) :=
  update_patch_iff envC1W ⟨"z1", "r1", "host.example.com"⟩ "5.6.7.8" rfl rfl (by decide)

/-- C2: for both record types and every assignment of step outcomes,
`get_public_ip` returns the first value accepted by a step (each step's
outcome incorporating its own acceptance rule: non-emptiness, plus the
15-character filter on the first IPv4 step), attempts exactly the steps up
to and including the first success, and returns `none` exactly when every
step fails. -/
theorem get_public_ip_first_success (rrtype : String) (env : DetectEnv)
    (h : rrtype = "A" ∨ rrtype = "AAAA") :
    (get_public_ip rrtype env = firstSome (chainOutcomes rrtype env)) ∧
    (get_public_ip rrtype env = none ↔ ∀ o ∈ chainOutcomes rrtype env, o = none) ∧
    (∀ j v, (chainOutcomes rrtype env).getD j none = some v →
      (∀ k, k < j → (chainOutcomes rrtype env).getD k none = none) →
      get_public_ip rrtype env = some v ∧ chainAttempts rrtype env = j + 1) ∧
    ((∀ o ∈ chainOutcomes rrtype env, o = none) →
      chainAttempts rrtype env = (chainSteps rrtype env).length) := by
  have hg : get_public_ip rrtype env =
      runChain (chainAccept rrtype) 0 (chainSteps rrtype env) := by
    rcases h with h | h <;> subst h <;> rfl
  refine ⟨?_, ?_, ?_, ?_⟩
  · rw [hg]
    exact runChain_eq_firstSome _ _ _
  · rw [hg, runChain_eq_firstSome]
    exact firstSome_eq_none_iff _
  · intro j v h1 h2
    constructor
    · rw [hg, runChain_eq_firstSome]
      exact firstSome_at _ j v h1 h2
    · exact attemptCount_at _ _ _ j v h1 h2
  · intro hall
    exact attemptCount_all_none _ _ _ hall

/-- C2 witness: IPv4 chain where step 1 errors and step 2 returns `1.2.3.4`;
the chain returns that value having attempted exactly two steps. -/
theorem get_public_ip_first_success_witness :
    get_public_ip "A" envC2W = some "1.2.3.4" ∧ chainAttempts "A" envC2W = 2 := by
  have hk : ∀ k, k < 1 → (chainOutcomes "A" envC2W).getD k none = none := by
    intro k hlt
    have h0 : k = 0 := Nat.lt_one_iff.mp hlt
    subst h0
    decide
  exact (get_public_ip_first_success "A" envC2W (Or.inl rfl)).2.2.1 1 "1.2.3.4" (by decide) hk

/-- C3 counterexample: with the config present, the provider read of the
stored address failing (`get_dns_record_ip` returns `None`), and resolution
succeeding, `update()` does not return without side effects — it issues the
PATCH.  This refutes the claim that a provider call failure causes `update()`
to return with no provider write call issued. -/
theorem update_write_despite_read_failure :
    envC3X.dnsRecordIp = none ∧
    (update envC3X).calls.filter isWrite ≠ [] ∧
    (update envC3X).outcome = UpdateOutcome.updated true := by
  decide

/-- C3 (amended): a missing config store or an address-resolution failure is
logged and causes `update()` to return without issuing any provider write
call and without raising; a failing PATCH is logged and `update()` returns
without raising (but the write call was issued); a failed provider read of
the stored address does not cause an early return — `update()` then treats
the stored address as unknown and issues the PATCH. -/
theorem update_soft_failures (env : UpdateEnv) :
    (env.configFile = none → update env = ⟨UpdateOutcome.noConfig, []⟩) ∧
    ((env.currentIp = none ∨ env.currentIp = some "") →
      ((update env).calls.filter isWrite = [] ∧
       ((update env).outcome = UpdateOutcome.noConfig ∨
        (update env).outcome = UpdateOutcome.noCurrentIp))) ∧
    (∀ cfg ip, env.configFile = some cfg → env.currentIp = some ip → ip ≠ "" →
      env.dnsRecordIp ≠ some ip →
      (update env).outcome = UpdateOutcome.updated env.patchSuccess) := by
  refine ⟨fun h => by simp [update, h], ?_, ?_⟩
  · intro h
    cases hc : env.configFile with
    | none => simp [update, hc]
    | some cfg => rcases h with h | h <;> simp [update, hc, h, isWrite]
  · intro cfg ip hc hi hne hd
    simp [update, hc, hi, hne, hd]

/-- C3 witness: with no config file present, `update()` returns the
no-config outcome having issued no provider call at all. -/
theorem update_soft_failures_witness :
    update envC3W = ⟨UpdateOutcome.noConfig, []⟩ :=
  (update_soft_failures envC3W).1 rfl

/-- C4: running `setup()` against a provider state where a matching record
already exists adopts that record id, calls `create_dns_record` zero times,
and leaves the count of matching records at one. -/
theorem setup_adopts_existing (env : SetupEnv) (zid rid : String)
    (hk : optFalsy env.API_KEY = false) (hz : optFalsy env.ZONE = false)
    (hv : env.verifyOk = true) (hzid : env.zoneId = some zid) (hzne : zid ≠ "")
    (hip : optFalsy env.currentIp = false)
    (hrid : env.existingRecordId = some rid) (hrne : rid ≠ "") :
    (setup env).createCalls = 0 ∧
    (setup env).written = some ⟨zid, rid, get_dns_name env.SUBDOMAIN (env.ZONE.getD "")⟩ ∧
    recordsAfter 1 (setup env) = 1 := by
  have hzf : optFalsy (some zid) = false := by simp [optFalsy, hzne]
  have hrf : optFalsy (some rid) = false := by simp [optFalsy, hrne]
  simp [setup, recordsAfter, hk, hz, hv, hip, hzid, hrid, hzf, hrf]

/-- C4 witness: concrete second `setup` run adopting record `r1`. -/
theorem setup_adopts_existing_witness :
    (setup envC4W).createCalls = 0 ∧
    (setup envC4W).written = some ⟨"z1", "r1", "home.example.com"⟩ ∧
    recordsAfter 1 (setup envC4W) = 1 := by
  have h := setup_adopts_existing envC4W "z1" "r1" (by decide) (by decide) rfl rfl
    (by decide) (by decide) rfl (by decide)
  exact ⟨h.1, by rw [h.2.1]; decide, h.2.2⟩

/-- C5: `setup()` exits with code 1 exactly when one of the fatal conditions
holds (missing credentials or zone, invalid credentials, zone not found,
address-resolution failure, record-creation failure) and with code 0
otherwise. -/
theorem setup_exit_code (env : SetupEnv) :
    (setup env).exitCode = if fatalCond env then 1 else 0 :=
  (setup_spec env).1

/-- C6 counterexample: the document `setup` persists names its fields
`CF_ZONE_ID`, `CF_RECORD_ID`, `CF_RECORD_NAME`, not `zoneId`, `recordId`,
`fqdn` as claimed. -/
theorem config_keys_not_as_claimed :
    (setup envC6W).written = some ⟨"z1", "r1", "home.example.com"⟩ ∧
    (configJson ⟨"z1", "r1", "home.example.com"⟩).map Prod.fst ≠ ["zoneId", "recordId", "fqdn"] := by
  decide

/-- C6 (amended): the persisted state written by `setup()` is a single JSON
document whose field names are exactly `CF_ZONE_ID`, `CF_RECORD_ID` and
`CF_RECORD_NAME`, holding the zone id, the record id (the adopted or the
newly created one) and the fully-qualified name respectively. -/
theorem setup_persisted_document (env : SetupEnv) (c : Config)
    (h : (setup env).written = some c) :
    (configJson c).map Prod.fst = ["CF_ZONE_ID", "CF_RECORD_ID", "CF_RECORD_NAME"] ∧
    env.zoneId = some c.CF_ZONE_ID ∧
    c.CF_RECORD_NAME = get_dns_name env.SUBDOMAIN (env.ZONE.getD "") ∧
    (env.existingRecordId = some c.CF_RECORD_ID ∨ env.createdRecordId = some c.CF_RECORD_ID) := by
  obtain ⟨hz, hzid, hname, hrec⟩ := setup_written_eq env c h
  refine ⟨rfl, ?_, hname, ?_⟩
  · obtain ⟨he, _⟩ := (optFalsy_false_iff _).mp hz
    rw [hzid]
    exact he
  · rcases hrec with ⟨hf, hid⟩ | ⟨_, hf, hid⟩
    · obtain ⟨he, _⟩ := (optFalsy_false_iff _).mp hf
      exact Or.inl (hid ▸ he)
    · obtain ⟨he, _⟩ := (optFalsy_false_iff _).mp hf
      exact Or.inr (hid ▸ he)

/-- C6 witness: the amended statement at a concrete successful run. -/
theorem setup_persisted_document_witness :
    (configJson ⟨"z1", "r1", "home.example.com"⟩).map Prod.fst =
      ["CF_ZONE_ID", "CF_RECORD_ID", "CF_RECORD_NAME"] ∧
    envC6W.zoneId = some "z1" ∧
    ("home.example.com" : String) = get_dns_name envC6W.SUBDOMAIN (envC6W.ZONE.getD "") ∧
    (envC6W.existingRecordId = some "r1" ∨ envC6W.createdRecordId = some "r1") :=
  setup_persisted_document envC6W ⟨"z1", "r1", "home.example.com"⟩ (by decide)

/-- C7: in the IPv4 chain's first, DNS-based step, a stripped response longer
than 15 characters is rejected and the chain falls through to the remaining
steps; a non-empty stripped response of at most 15 characters is returned. -/
theorem ipv4_dns_step_filter (env : DetectEnv) (s : String) (h : env.cfDnsA = some s) :
    (15 < s.length →
      get_public_ip "A" env =
        runChain acceptA 1 [env.openDns, env.ipinfo, env.ipify, env.icanhazipA,
          env.checkipA, env.httpbinA, env.myipA]) ∧
    (s ≠ "" → s.length ≤ 15 → get_public_ip "A" env = some s) := by
  have hg : get_public_ip "A" env =
      runChain acceptA 0 (some s :: [env.openDns, env.ipinfo, env.ipify, env.icanhazipA,
        env.checkipA, env.httpbinA, env.myipA]) := by
    simp [get_public_ip, aSteps, h]
  constructor
  · intro h15
    have hle : ¬ s.length ≤ 15 := Nat.not_le.mpr h15
    have ha : acceptA 0 s = false := by simp [acceptA, hle]
    rw [hg]
    simp [runChain, ha]
  · intro hne h15
    have ha : acceptA 0 s = true := by simp [acceptA, hne, h15]
    rw [hg]
    simp [runChain, ha]

/-- C7 witness: a 7-character response from the DNS step is returned. -/
theorem ipv4_dns_step_filter_witness :
    get_public_ip "A" envC7W = some "8.8.8.8" :=
  (ipv4_dns_step_filter envC7W "8.8.8.8" rfl).2 (by decide) (by decide)

/-- C8 counterexample: a configured secret file that exists but whose content
strips to the empty string does not override the environment value — the
resolved setting is the environment value, refuting "for every combination of
file content and environment value". -/
theorem secret_file_empty_falls_back :
    load_from_file (some "/run/secrets/key2") fsC8X = some "" ∧
    resolveSetting (some "/run/secrets/key2") fsC8X (some "env-key") = some "env-key" := by
  decide

/-- C8 (amended): whenever a secret-file path is configured, the file exists
and its content is non-empty after stripping, the stripped file value
overrides the environment value, for every environment value; a file whose
content strips to empty falls back to the environment value. -/
theorem secret_file_overrides (fileVar : Option String) (p : String)
    (fs : String → Option String) (envVar : Option String) (content : String)
    (h1 : fileVar = some p) (h2 : p ≠ "") (h3 : fs p = some content)
    (h4 : pyStrip content ≠ "") :
    resolveSetting fileVar fs envVar = some (pyStrip content) := by
  subst h1
  simp [resolveSetting, load_from_file, orPy, h2, h3, h4]

/-- C8 witness: a padded secret-file value overrides the environment value. -/
theorem secret_file_overrides_witness :
    resolveSetting (some "/run/secrets/key") fsC8W (some "env-key") = some "key123" :=
  (secret_file_overrides (some "/run/secrets/key") "/run/secrets/key" fsC8W
    (some "env-key") " key123 " rfl (by decide) (by decide) (by decide)).trans (by decide)

/-- C9: whenever `setup()` terminates on a fatal path, the persisted config
file is not written, so the store retains whatever prior content existed. -/
theorem setup_fatal_no_write (env : SetupEnv) (h : (setup env).exitCode = 1) :
    (setup env).written = none ∧
    ∀ prior : Option Config, storeAfter (setup env) prior = prior := by
  have hs := setup_spec env
  have hf : fatalCond env = true := by
    by_contra hc
    rw [Bool.not_eq_true] at hc
    have h0 : (setup env).exitCode = 0 := by simpa [hc] using hs.1
    omega
  have hw : (setup env).written = none := hs.2.mpr hf
  exact ⟨hw, fun prior => by simp [storeAfter, hw]⟩

/-- C9 witness: a fatal run (missing API key) leaves a prior store intact. -/
theorem setup_fatal_no_write_witness :
    (setup envC9W).written = none ∧
    storeAfter (setup envC9W) (some ⟨"a", "b", "c"⟩) = some ⟨"a", "b", "c"⟩ :=
  ⟨(setup_fatal_no_write envC9W (by decide)).1,
   (setup_fatal_no_write envC9W (by decide)).2 (some ⟨"a", "b", "c"⟩)⟩

/-- C10: every `create_dns_record` payload sets `ttl` to 1 and every
`update_dns_record` payload omits the `ttl` field entirely. -/
theorem record_payload_ttl (name content rrtype : String) (proxied : Bool)
    (name2 content2 rrtype2 : String) (proxied2 : Bool) :
    lookupField "ttl" (create_dns_record_data name content rrtype proxied) = some (.int 1) ∧
    lookupField "ttl" (update_dns_record_data name2 content2 rrtype2 proxied2) = none := by
  constructor <;> rfl
